import Mathlib

/-!
Verification of the pixel rendering core of `webview-napi`
(`src/winit/render.rs`), a CPU-side compositor that scales RGBA pixel
buffers onto a per-window presentation surface.

Modelling conventions:
* Rust `u32` values are `Nat` together with explicit wrap-around
  (`% 2^32`) exactly where the source performs `u32` arithmetic that can
  overflow (release-profile wrapping semantics); `usize` arithmetic is
  plain `Nat` (64-bit, never overflowed by the quantities involved).
* Rust `f64` arithmetic is modelled in exact rational arithmetic (`ℚ`);
  `f64 as u32` is truncation toward zero saturated to `[0, 2^32)`
  (`toU32`).  Division by zero yields `0` in `ℚ` (vs `inf` in `f64`),
  which only matters when a buffer dimension is zero; the theorems that
  depend on exact values keep buffer dimensions positive.
* The softbuffer surface, context and present calls are external native
  resources; they are modelled as infallible, with the surface retaining
  the size given to the last `resize` and `buffer_mut` yielding a frame
  of exactly `width * height` packed pixels.
* Pixel buffers and frames are `List Nat` (bytes resp. packed `u32`
  pixels); the global cache is an association list keyed by the `u64`
  window-id hash.
-/

namespace WebviewRender

/-- `2^32`, the modulus of Rust `u32` arithmetic. -/
def U32 : Nat := 4294967296

/-- Wrapping `u32` addition (`a`, `b` assumed already reduced mod `U32`). -/
def wadd (a b : Nat) : Nat := (a + b) % U32

/-- Wrapping `u32` multiplication. -/
def wmul (a b : Nat) : Nat := a * b % U32

/-- Wrapping `u32` subtraction (for `a, b < U32`). -/
def wsub (a b : Nat) : Nat := (a + U32 - b) % U32

/-- Rust `f64 as u32`: truncation toward zero, saturating at the `u32`
range (negative values to `0`, values `≥ 2^32` to `2^32 - 1`), modelled
on exact rationals. -/
def toU32 (q : ℚ) : Nat := min (Int.toNat ⌊q⌋) (U32 - 1)

/-- Modelled from the spec: the `ScaleMode` enum from
`src/winit/enums.rs` (that file is not part of the provided sources);
the spec fixes its variants as `{Stretch, Fit, Fill, Integer, None}`. -/
inductive ScaleMode
  | stretch
  | fit
  | fill
  | integer
  | none
deriving DecidableEq

/-- `calculate_scaled_dimensions` (render.rs:370-416): computes
`(offset_x, offset_y, scaled_width, scaled_height)` for a scale mode.
All division and subtraction on `u32` mirrors the source exactly:
the centering subtractions `window - scaled` are wrapping `u32`
subtractions, the divisions by two truncating `u32` division. -/
def calculate_scaled_dimensions (buffer_width buffer_height window_width window_height : Nat)
    (scale_mode : ScaleMode) : Nat × Nat × Nat × Nat :=
  match scale_mode with
  | ScaleMode.stretch => (0, 0, window_width, window_height)
  | ScaleMode.fit =>
    let scale_x : ℚ := (window_width : ℚ) / (buffer_width : ℚ)
    let scale_y : ℚ := (window_height : ℚ) / (buffer_height : ℚ)
    let scale := min scale_x scale_y
    let scaled_width := toU32 ((buffer_width : ℚ) * scale)
    let scaled_height := toU32 ((buffer_height : ℚ) * scale)
    let offset_x := wsub window_width scaled_width / 2
    let offset_y := wsub window_height scaled_height / 2
    (offset_x, offset_y, scaled_width, scaled_height)
  | ScaleMode.fill =>
    let scale_x : ℚ := (window_width : ℚ) / (buffer_width : ℚ)
    let scale_y : ℚ := (window_height : ℚ) / (buffer_height : ℚ)
    let scale := max scale_x scale_y
    let scaled_width := toU32 ((buffer_width : ℚ) * scale)
    let scaled_height := toU32 ((buffer_height : ℚ) * scale)
    let offset_x := wsub window_width scaled_width / 2
    let offset_y := wsub window_height scaled_height / 2
    (offset_x, offset_y, scaled_width, scaled_height)
  | ScaleMode.integer =>
    let scale_x : ℚ := (window_width : ℚ) / (buffer_width : ℚ)
    let scale_y : ℚ := (window_height : ℚ) / (buffer_height : ℚ)
    let scale := toU32 ⌊min scale_x scale_y⌋
    let scale := max scale 1
    let scaled_width := wmul buffer_width scale
    let scaled_height := wmul buffer_height scale
    let offset_x := wsub window_width scaled_width / 2
    let offset_y := wsub window_height scaled_height / 2
    (offset_x, offset_y, scaled_width, scaled_height)
  | ScaleMode.none =>
    let offset_x := (window_width - buffer_width) / 2
    let offset_y := (window_height - buffer_height) / 2
    (offset_x, offset_y, buffer_width, buffer_height)

/-- `u32::from_le_bytes([b0, b1, b2, b3])`: `b0` is the least significant
byte. -/
def from_le_bytes (b0 b1 b2 b3 : Nat) : Nat :=
  b0 + b1 * 256 + b2 * 65536 + b3 * 16777216

/-- The packed ARGB pixel built from the four source bytes starting at
`srcIdx` of the RGBA byte buffer: `from_le_bytes([B, G, R, 255])`
(render.rs:453-458 and the identical conversions at 485-490, 533-538). -/
def pixelToArgb (buffer : List Nat) (srcIdx : Nat) : Nat :=
  from_le_bytes (buffer.getD (srcIdx + 2) 0) (buffer.getD (srcIdx + 1) 0)
    (buffer.getD srcIdx 0) 255

/-- The guarded destination write shared by all three copy routines:
write the converted pixel only when the 4 source bytes are in bounds and
the destination index is in bounds (render.rs:451, 483, 531). -/
def putPixel (surface buffer : List Nat) (srcIdx dstIdx : Nat) : List Nat :=
  if srcIdx + 4 ≤ buffer.length ∧ dstIdx < surface.length then
    surface.set dstIdx (pixelToArgb buffer srcIdx)
  else surface

/-- Nearest-neighbour source coordinate:
`(i as f64 * (bufDim / denom)).min(bufDim as f64 - 1.0) as u32`
(render.rs:443, 446, 513, 521). -/
def srcCoord (i bufDim denom : Nat) : Nat :=
  toU32 (min ((i : ℚ) * ((bufDim : ℚ) / (denom : ℚ))) ((bufDim : ℚ) - 1))

/-- Inner loop of `copy_buffer_stretch` (render.rs:445-460): `x` runs
with `rem` iterations left out of `window_width`.  The index arithmetic
`(src_y * buffer_width + src_x) * 4` and `y * window_width + x` is `u32`
arithmetic in the source, hence the wrapping operations. -/
def stretchRowGo (buffer : List Nat) (bw ww y srcY : Nat) :
    Nat → Nat → List Nat → List Nat
  | _x, 0, s => s
  | x, rem + 1, s =>
    let srcX := srcCoord x bw ww
    let srcIdx := wmul (wadd (wmul srcY bw) srcX) 4
    let dstIdx := wadd (wmul y ww) x
    stretchRowGo buffer bw ww y srcY (x + 1) rem (putPixel s buffer srcIdx dstIdx)

/-- Outer loop of `copy_buffer_stretch` (render.rs:442-461). -/
def stretchGo (buffer : List Nat) (bw bh ww wh : Nat) :
    Nat → Nat → List Nat → List Nat
  | _y, 0, s => s
  | y, rem + 1, s =>
    let srcY := srcCoord y bh wh
    stretchGo buffer bw bh ww wh (y + 1) rem (stretchRowGo buffer bw ww y srcY 0 ww s)

/-- `copy_buffer_stretch` (render.rs:431-462). -/
def copy_buffer_stretch (surface buffer : List Nat) (bw bh ww wh : Nat) : List Nat :=
  stretchGo buffer bw bh ww wh 0 wh surface

/-- Inner loop of `copy_buffer_centered` (render.rs:479-492): the
destination index is `usize` arithmetic (plain `Nat`), the source index
mixes `u32` products cast to `usize` (render.rs:477, 480). -/
def centeredRowGo (buffer : List Nat) (bw ww offX offY y : Nat) :
    Nat → Nat → List Nat → List Nat
  | _x, 0, s => s
  | x, rem + 1, s =>
    let srcIdx := wmul (wmul y bw) 4 + wmul x 4
    let dstIdx := (offY + y) * ww + offX + x
    centeredRowGo buffer bw ww offX offY y (x + 1) rem (putPixel s buffer srcIdx dstIdx)

/-- Outer loop of `copy_buffer_centered` (render.rs:476-493). -/
def centeredGo (buffer : List Nat) (bw bh ww wh offX offY : Nat) :
    Nat → Nat → List Nat → List Nat
  | _y, 0, s => s
  | y, rem + 1, s =>
    centeredGo buffer bw bh ww wh offX offY (y + 1) rem
      (centeredRowGo buffer bw ww offX offY y 0 (min bw ww) s)

/-- `copy_buffer_centered` (render.rs:465-494): offsets use `usize`
saturating subtraction, loops run to `min` of buffer/window dims. -/
def copy_buffer_centered (surface buffer : List Nat) (bw bh ww wh : Nat) : List Nat :=
  centeredGo buffer bw bh ww wh ((ww - bw) / 2) ((wh - bh) / 2) 0 (min bh wh) surface

/-- Parameters of `copy_buffer_scaled` (render.rs:419-428). -/
structure CopyBufferParams where
  buffer_width : Nat
  buffer_height : Nat
  window_width : Nat
  window_height : Nat
  offset_x : Nat
  offset_y : Nat
  scaled_width : Nat
  scaled_height : Nat
deriving DecidableEq

/-- Inner loop of `copy_buffer_scaled` (render.rs:520-540): breaks as
soon as `dst_x = offset_x + x` (wrapping `u32` addition) reaches
`window_width`. -/
def scaledRowGo (buffer : List Nat) (p : CopyBufferParams) (srcY dstY : Nat) :
    Nat → Nat → List Nat → List Nat
  | _x, 0, s => s
  | x, rem + 1, s =>
    let srcX := srcCoord x p.buffer_width p.scaled_width
    let dstX := wadd p.offset_x x
    if p.window_width ≤ dstX then s
    else
      let srcIdx := wmul (wadd (wmul srcY p.buffer_width) srcX) 4
      let dstIdx := wadd (wmul dstY p.window_width) dstX
      scaledRowGo buffer p srcY dstY (x + 1) rem (putPixel s buffer srcIdx dstIdx)

/-- Outer loop of `copy_buffer_scaled` (render.rs:512-541): breaks as
soon as `dst_y = offset_y + y` reaches `window_height`. -/
def scaledGo (buffer : List Nat) (p : CopyBufferParams) :
    Nat → Nat → List Nat → List Nat
  | _y, 0, s => s
  | y, rem + 1, s =>
    let srcY := srcCoord y p.buffer_height p.scaled_height
    let dstY := wadd p.offset_y y
    if p.window_height ≤ dstY then s
    else scaledGo buffer p (y + 1) rem (scaledRowGo buffer p srcY dstY 0 p.scaled_width s)

/-- `copy_buffer_scaled` (render.rs:497-542). -/
def copy_buffer_scaled (surface buffer : List Nat) (p : CopyBufferParams) : List Nat :=
  scaledGo buffer p 0 p.scaled_height surface

/-- The `[u8; 4]` RGBA background color. -/
structure Color where
  r : Nat
  g : Nat
  b : Nat
  a : Nat
deriving DecidableEq

/-- The packed background pixel
`u32::from_le_bytes([bg[2], bg[1], bg[0], 255])` (render.rs:314): blue in
the low byte, then green, red, and a forced-opaque alpha byte; the
configured alpha component is not consulted. -/
def bgArgb (c : Color) : Nat := from_le_bytes c.b c.g c.r 255

/-- The background fill `for pixel in surface_buffer.iter_mut()`
(render.rs:315-317). -/
def fillBackground (c : Color) (surface : List Nat) : List Nat :=
  surface.map fun _ => bgArgb c

/-- The `PixelRenderer` struct (render.rs:59-64). -/
structure PixelRenderer where
  buffer_width : Nat
  buffer_height : Nat
  scale_mode : ScaleMode
  bg_color : Color
deriving DecidableEq

/-- `PixelRenderer::new` (render.rs:70-77). -/
def PixelRenderer.new (buffer_width buffer_height : Nat) : PixelRenderer :=
  { buffer_width := buffer_width
    buffer_height := buffer_height
    scale_mode := ScaleMode.fit
    bg_color := ⟨0, 0, 0, 255⟩ }

/-- `RenderOptions` (render.rs:15-24). -/
structure RenderOptions where
  buffer_width : Nat
  buffer_height : Nat
  scale_mode : Option ScaleMode
  background_color : Option (List Nat)

/-- `PixelRenderer::with_options` (render.rs:81-100): a background list
with at least four entries contributes exactly its first four components,
anything else falls back to opaque black; a missing scale mode defaults
to `Fit`. -/
def PixelRenderer.with_options (options : RenderOptions) : PixelRenderer :=
  let bg :=
    match options.background_color with
    | Option.some c =>
      if 4 ≤ c.length then Color.mk (c.getD 0 0) (c.getD 1 0) (c.getD 2 0) (c.getD 3 0)
      else ⟨0, 0, 0, 255⟩
    | Option.none => ⟨0, 0, 0, 255⟩
  { buffer_width := options.buffer_width
    buffer_height := options.buffer_height
    scale_mode := options.scale_mode.getD ScaleMode.fit
    bg_color := bg }

/-- `PixelRenderer::render_to_buffer` (render.rs:297-358): fill with the
background, then dispatch on the scale mode (`Stretch` and `None` have
dedicated routines, every other mode uses `copy_buffer_scaled`). -/
def PixelRenderer.render_to_buffer (self : PixelRenderer) (surface buffer : List Nat)
    (window_width window_height : Nat) : List Nat :=
  let dims := calculate_scaled_dimensions self.buffer_width self.buffer_height
    window_width window_height self.scale_mode
  let filled := fillBackground self.bg_color surface
  match self.scale_mode with
  | ScaleMode.stretch =>
    copy_buffer_stretch filled buffer self.buffer_width self.buffer_height
      window_width window_height
  | ScaleMode.none =>
    copy_buffer_centered filled buffer self.buffer_width self.buffer_height
      window_width window_height
  | _ =>
    copy_buffer_scaled filled buffer
      { buffer_width := self.buffer_width
        buffer_height := self.buffer_height
        window_width := window_width
        window_height := window_height
        offset_x := dims.1
        offset_y := dims.2.1
        scaled_width := dims.2.2.1
        scaled_height := dims.2.2.2 }

/-- The error cases `render` can report in the model.  Surface/context
creation, resize and present are modelled as infallible externals, so
their failure arms are not represented.  `bufferSizeMismatch` carries the
data of the formatted message "got {actual} bytes, expected {expected}
bytes for {w}x{h}" (render.rs:148-154). -/
inductive RenderError
  | windowUnavailable
  | bufferSizeMismatch (actual expected buffer_width buffer_height : Nat)
  | lockFailure
  | stateUnavailable
deriving DecidableEq

/-- Per-window `RenderState` (render.rs:38-44).  The native context and
surface are abstracted to the surface's current size (set by the last
`resize`; `0 × 0` right after creation, which does not size the
surface). -/
structure RenderState where
  last_window_width : Nat
  last_window_height : Nat
  surface_width : Nat
  surface_height : Nat
deriving DecidableEq

/-- The global `RENDER_STATE_CACHE` content: a map from the `u64`
window-id hash to the `RenderState` (render.rs:48-52), as an association
list with at most one entry per key. -/
abbrev Cache : Type := List (Nat × RenderState)

/-- The empty cache. -/
def emptyCache : Cache := []

/-- `HashMap` lookup. -/
def cacheLookup (c : Cache) (k : Nat) : Option RenderState :=
  match c with
  | [] => Option.none
  | kv :: rest => if kv.1 = k then Option.some kv.2 else cacheLookup rest k

/-- `HashMap::remove`. -/
def cacheRemove (c : Cache) (k : Nat) : Cache :=
  match c with
  | [] => []
  | kv :: rest => if kv.1 = k then cacheRemove rest k else kv :: cacheRemove rest k

/-- `HashMap::insert` (replacing any previous entry for the key). -/
def cacheInsert (c : Cache) (k : Nat) (v : RenderState) : Cache :=
  (k, v) :: cacheRemove c k

/-- The window collaborator: `crate::winit::structs::Window` holds
`inner : Option<Arc<Mutex<winit Window>>>`; the model resolves it to its
stable id hash and current inner size.  Modelled from the spec: the
`Window` struct lives in `src/winit/structs.rs`, which is not among the
provided sources; the spec requires only a stable identity and current
pixel dimensions. -/
structure WindowModel where
  id : Nat
  width : Nat
  height : Nat

/-- `NonZeroU32::new(n).unwrap_or(NonZeroU32::new(1).unwrap())`
(render.rs:266-267). -/
def clampNZ (n : Nat) : Nat := if n = 0 then 1 else n

/-- `PixelRenderer::render` (render.rs:120-294).  Inputs beyond the
source signature make the external state explicit: `poisoned` is whether
the global cache mutex is poisoned, `window = none` models an
uninitialized window (`inner == None`), and `cache` is the current
content of `RENDER_STATE_CACHE`.  Returns the cache afterwards and
either the error or the presented frame (the surface buffer contents at
the `present` call). -/
def PixelRenderer.render (self : PixelRenderer) (poisoned : Bool)
    (window : Option WindowModel) (buffer : List Nat) (cache : Cache) :
    Cache × Except RenderError (List Nat) :=
  match window with
  | Option.none => (cache, Except.error RenderError.windowUnavailable)
  | Option.some w =>
    let expected_len := wmul (wmul self.buffer_width self.buffer_height) 4
    if buffer.length ≠ expected_len then
      (cache, Except.error (RenderError.bufferSizeMismatch buffer.length expected_len
        self.buffer_width self.buffer_height))
    else if poisoned then
      (cache, Except.error RenderError.lockFailure)
    else
      let cache1 :=
        if (cacheLookup cache w.id).isNone then
          cacheInsert cache w.id ⟨w.width, w.height, 0, 0⟩
        else cache
      match cacheLookup cache1 w.id with
      | Option.none => (cache1, Except.error RenderError.stateUnavailable)
      | Option.some st =>
        let cache2 :=
          if st.last_window_width ≠ w.width ∨ st.last_window_height ≠ w.height then
            cacheInsert (cacheRemove cache1 w.id) w.id ⟨w.width, w.height, 0, 0⟩
          else cache1
        match cacheLookup cache2 w.id with
        | Option.none => (cache2, Except.error RenderError.stateUnavailable)
        | Option.some st2 =>
          let sw := clampNZ w.width
          let sh := clampNZ w.height
          let st3 := { st2 with surface_width := sw, surface_height := sh }
          let cache3 := cacheInsert (cacheRemove cache2 w.id) w.id st3
          let frame := self.render_to_buffer (List.replicate (sw * sh) 0) buffer
            w.width w.height
          (cache3, Except.ok frame)

/-- `render_pixels` (render.rs:549-557): one-shot renderer. -/
def render_pixels (poisoned : Bool) (window : Option WindowModel) (buffer : List Nat)
    (buffer_width buffer_height : Nat) (cache : Cache) :
    Cache × Except RenderError (List Nat) :=
  (PixelRenderer.new buffer_width buffer_height).render poisoned window buffer cache

/-- `clear_render_cache` (render.rs:562-566): `if let Ok(cache) = ...`
silently skips the removal when the lock is poisoned; the function
returns unit and cannot report an error. -/
def clear_render_cache (poisoned : Bool) (cache : Cache) (window_id : Nat) : Cache :=
  if poisoned then cache else cacheRemove cache window_id

/-- `clear_all_render_caches` (render.rs:571-575): same silent skip on a
poisoned lock. -/
def clear_all_render_caches (poisoned : Bool) (cache : Cache) : Cache :=
  if poisoned then cache else []

/-- Whether a render outcome is a success. -/
def isOkE {α : Type} : Except RenderError α → Bool
  | Except.ok _ => true
  | Except.error _ => false

/-- The number of packed pixels of a successfully presented frame
(`0` for a failed render). -/
def frameLen : Except RenderError (List Nat) → Nat
  | Except.ok f => f.length
  | Except.error _ => 0

/-- A packed pixel that was produced from four in-bounds bytes of the
source buffer. -/
def sourceDerived (buffer : List Nat) (v : Nat) : Prop :=
  ∃ s, s + 4 ≤ buffer.length ∧ v = pixelToArgb buffer s

/-- `out` differs from `s0` only at indices inside the window rectangle
`[0, ww * wh)`, every changed pixel comes from an in-bounds source read,
and the length is unchanged. -/
def ClippedWrites (s0 buffer : List Nat) (ww wh : Nat) (out : List Nat) : Prop :=
  out.length = s0.length ∧
  (∀ i, ww * wh ≤ i → out.getD i 0 = s0.getD i 0) ∧
  (∀ i, out.getD i 0 ≠ s0.getD i 0 → sourceDerived buffer (out.getD i 0))

theorem getD_set_ne (l : List Nat) (i j v d : Nat) (h : i ≠ j) :
    (l.set j v).getD i d = l.getD i d := by
  simp [List.getD_eq_getElem?_getD, List.getElem?_set_ne (Ne.symm h)]

theorem getD_set_lt (l : List Nat) (j v d : Nat) (h : j < l.length) :
    (l.set j v).getD j d = v := by
  simp [List.getD_eq_getElem?_getD, List.getElem?_set_eq_of_lt v h]

theorem clippedWrites_refl (s0 buffer : List Nat) (ww wh : Nat) :
    ClippedWrites s0 buffer ww wh s0 := by
  refine ⟨rfl, fun i _ => rfl, fun i hi => absurd rfl hi⟩

theorem clippedWrites_putPixel (s0 buffer s : List Nat) (ww wh srcIdx dstIdx : Nat)
    (h : ClippedWrites s0 buffer ww wh s) (hd : dstIdx < ww * wh) :
    ClippedWrites s0 buffer ww wh (putPixel s buffer srcIdx dstIdx) := by
  obtain ⟨hlen, hhi, hsrc⟩ := h
  unfold putPixel
  split
  case isFalse => exact ⟨hlen, hhi, hsrc⟩
  case isTrue hg =>
    refine ⟨by simpa using hlen, ?_, ?_⟩
    · intro i hi
      have hne : i ≠ dstIdx := by omega
      rw [getD_set_ne s i dstIdx (pixelToArgb buffer srcIdx) 0 hne]
      exact hhi i hi
    · intro i hchanged
      by_cases hie : i = dstIdx
      · subst hie
        rw [getD_set_lt s i (pixelToArgb buffer srcIdx) 0 hg.2] at hchanged ⊢
        exact ⟨srcIdx, hg.1, rfl⟩
      · rw [getD_set_ne s i dstIdx (pixelToArgb buffer srcIdx) 0 hie] at hchanged ⊢
        exact hsrc i hchanged

/-- A destination index `a * ww + b` with in-rectangle coordinates lies
inside the window rectangle. -/
theorem idx_lt (a b ww wh : Nat) (ha : a < wh) (hb : b < ww) :
    a * ww + b < ww * wh := by
  have h1 : a * ww + b < a * ww + ww := Nat.add_lt_add_left hb _
  have h2 : a * ww + ww = (a + 1) * ww := (Nat.succ_mul a ww).symm
  have h3 : (a + 1) * ww ≤ wh * ww := Nat.mul_le_mul_right ww ha
  calc a * ww + b < (a + 1) * ww := h2 ▸ h1
    _ ≤ wh * ww := h3
    _ = ww * wh := Nat.mul_comm wh ww

/-- The wrapped `u32` destination index `dst_y * ww + dst_x` stays inside
the window rectangle whenever `dst_x < ww` and `dst_y < wh`. -/
theorem wIdx_lt (a b ww wh : Nat) (ha : a < wh) (hb : b < ww) :
    wadd (wmul a ww) b < ww * wh := by
  have heq : wadd (wmul a ww) b = (a * ww + b) % U32 := by
    unfold wadd wmul U32
    generalize a * ww = t
    omega
  calc wadd (wmul a ww) b = (a * ww + b) % U32 := heq
    _ ≤ a * ww + b := Nat.mod_le _ _
    _ < ww * wh := idx_lt a b ww wh ha hb

theorem stretchRowGo_clipped (buffer s0 : List Nat) (bw ww wh y srcY : Nat) (hy : y < wh) :
    ∀ rem x s, x + rem ≤ ww → ClippedWrites s0 buffer ww wh s →
      ClippedWrites s0 buffer ww wh (stretchRowGo buffer bw ww y srcY x rem s) := by
  intro rem
  induction rem with
  | zero => intro x s _ h; simpa [stretchRowGo] using h
  | succ n ih =>
    intro x s hxn h
    rw [stretchRowGo]
    exact ih (x + 1) _ (by omega)
      (clippedWrites_putPixel s0 buffer s ww wh _ _ h (wIdx_lt y x ww wh hy (by omega)))

theorem stretchGo_clipped (buffer s0 : List Nat) (bw bh ww wh : Nat) :
    ∀ rem y s, y + rem ≤ wh → ClippedWrites s0 buffer ww wh s →
      ClippedWrites s0 buffer ww wh (stretchGo buffer bw bh ww wh y rem s) := by
  intro rem
  induction rem with
  | zero => intro y s _ h; simpa [stretchGo] using h
  | succ n ih =>
    intro y s hyn h
    rw [stretchGo]
    exact ih (y + 1) _ (by omega)
      (stretchRowGo_clipped buffer s0 bw ww wh y _ (by omega) ww 0 s (by omega) h)

/-- `copy_buffer_stretch` only writes pixels inside the window rectangle,
each produced from an in-bounds 4-byte source read. -/
theorem stretch_clipped (surface buffer : List Nat) (bw bh ww wh : Nat) :
    ClippedWrites surface buffer ww wh (copy_buffer_stretch surface buffer bw bh ww wh) :=
  stretchGo_clipped buffer surface bw bh ww wh wh 0 surface (by omega)
    (clippedWrites_refl surface buffer ww wh)

theorem centeredRowGo_clipped (buffer s0 : List Nat) (bw ww wh offX offY y xlim : Nat)
    (ha : offY + y < wh) (hx : offX + xlim ≤ ww) :
    ∀ rem x s, x + rem ≤ xlim → ClippedWrites s0 buffer ww wh s →
      ClippedWrites s0 buffer ww wh (centeredRowGo buffer bw ww offX offY y x rem s) := by
  intro rem
  induction rem with
  | zero => intro x s _ h; simpa [centeredRowGo] using h
  | succ n ih =>
    intro x s hxn h
    rw [centeredRowGo]
    have hdst : (offY + y) * ww + offX + x < ww * wh := by
      have := idx_lt (offY + y) (offX + x) ww wh ha (by omega)
      omega
    exact ih (x + 1) _ (by omega)
      (clippedWrites_putPixel s0 buffer s ww wh _ _ h hdst)

theorem centeredGo_clipped (buffer s0 : List Nat) (bw bh ww wh offX offY ylim : Nat)
    (hyl : offY + ylim ≤ wh) (hx : offX + min bw ww ≤ ww) :
    ∀ rem y s, y + rem ≤ ylim → ClippedWrites s0 buffer ww wh s →
      ClippedWrites s0 buffer ww wh (centeredGo buffer bw bh ww wh offX offY y rem s) := by
  intro rem
  induction rem with
  | zero => intro y s _ h; simpa [centeredGo] using h
  | succ n ih =>
    intro y s hyn h
    rw [centeredGo]
    exact ih (y + 1) _ (by omega)
      (centeredRowGo_clipped buffer s0 bw ww wh offX offY y (min bw ww) (by omega) hx
        (min bw ww) 0 s (by omega) h)

/-- `copy_buffer_centered` only writes pixels inside the window
rectangle, each produced from an in-bounds 4-byte source read. -/
theorem centered_clipped (surface buffer : List Nat) (bw bh ww wh : Nat) :
    ClippedWrites surface buffer ww wh (copy_buffer_centered surface buffer bw bh ww wh) := by
  unfold copy_buffer_centered
  exact centeredGo_clipped buffer surface bw bh ww wh ((ww - bw) / 2) ((wh - bh) / 2)
    (min bh wh) (by omega) (by omega) (min bh wh) 0 surface (by omega)
    (clippedWrites_refl surface buffer ww wh)

theorem scaledRowGo_clipped (buffer s0 : List Nat) (p : CopyBufferParams) (srcY dstY : Nat)
    (hdY : dstY < p.window_height) :
    ∀ rem x s, ClippedWrites s0 buffer p.window_width p.window_height s →
      ClippedWrites s0 buffer p.window_width p.window_height
        (scaledRowGo buffer p srcY dstY x rem s) := by
  intro rem
  induction rem with
  | zero => intro x s h; simpa [scaledRowGo] using h
  | succ n ih =>
    intro x s h
    rw [scaledRowGo]
    split
    case isTrue => exact h
    case isFalse hbrk =>
      exact ih (x + 1) _
        (clippedWrites_putPixel s0 buffer s _ _ _ _ h
          (wIdx_lt dstY (wadd p.offset_x x) p.window_width p.window_height hdY (by omega)))

theorem scaledGo_clipped (buffer s0 : List Nat) (p : CopyBufferParams) :
    ∀ rem y s, ClippedWrites s0 buffer p.window_width p.window_height s →
      ClippedWrites s0 buffer p.window_width p.window_height (scaledGo buffer p y rem s) := by
  intro rem
  induction rem with
  | zero => intro y s h; simpa [scaledGo] using h
  | succ n ih =>
    intro y s h
    rw [scaledGo]
    split
    case isTrue => exact h
    case isFalse hbrk =>
      exact ih (y + 1) _
        (scaledRowGo_clipped buffer s0 p _ _ (by omega) p.scaled_width 0 s h)

/-- `copy_buffer_scaled` only writes pixels inside the window rectangle
(even for Fill layouts whose scaled rectangle exceeds the window), each
produced from an in-bounds 4-byte source read. -/
theorem scaled_clipped (surface buffer : List Nat) (p : CopyBufferParams) :
    ClippedWrites surface buffer p.window_width p.window_height
      (copy_buffer_scaled surface buffer p) :=
  scaledGo_clipped buffer surface p p.scaled_height 0 surface
    (clippedWrites_refl surface buffer p.window_width p.window_height)

theorem fillBackground_length (c : Color) (s : List Nat) :
    (fillBackground c s).length = s.length := by
  simp [fillBackground]

/-- Every copy routine and the background fill preserve the frame size,
so `render_to_buffer` does. -/
theorem render_to_buffer_length (self : PixelRenderer) (surface buffer : List Nat)
    (ww wh : Nat) :
    (self.render_to_buffer surface buffer ww wh).length = surface.length := by
  unfold PixelRenderer.render_to_buffer
  have hf := fillBackground_length self.bg_color surface
  cases self.scale_mode with
  | stretch => rw [(stretch_clipped _ buffer _ _ ww wh).1, hf]
  | none => rw [(centered_clipped _ buffer _ _ ww wh).1, hf]
  | fit => rw [(scaled_clipped _ buffer _).1, hf]
  | fill => rw [(scaled_clipped _ buffer _).1, hf]
  | integer => rw [(scaled_clipped _ buffer _).1, hf]

theorem cacheLookup_insert (c : Cache) (k : Nat) (v : RenderState) :
    cacheLookup (cacheInsert c k v) k = Option.some v := by
  simp [cacheInsert, cacheLookup]

/-- The success path of `render`: with a resolvable window, a healthy
lock and a buffer of the expected length, `render` presents the frame
produced by `render_to_buffer` on a surface of the clamped window size,
and leaves a cache entry for the window that stores the window's current
dimensions. -/
theorem render_success (self : PixelRenderer) (w : WindowModel) (buffer : List Nat)
    (cache : Cache)
    (hlen : buffer.length = wmul (wmul self.buffer_width self.buffer_height) 4) :
    ∃ cache', self.render false (Option.some w) buffer cache =
      (cache', Except.ok (self.render_to_buffer
        (List.replicate (clampNZ w.width * clampNZ w.height) 0) buffer w.width w.height)) ∧
      cacheLookup cache' w.id =
        Option.some ⟨w.width, w.height, clampNZ w.width, clampNZ w.height⟩ := by
  unfold PixelRenderer.render
  dsimp only
  rw [if_neg (by simp [hlen])]
  simp only [Bool.false_eq_true, if_false]
  by_cases hl : (cacheLookup cache w.id).isNone
  · rw [if_pos hl, cacheLookup_insert]
    simp only [ne_eq, not_true_eq_false, not_false_eq_true, or_self, if_false,
      cacheLookup_insert]
    exact ⟨_, rfl, cacheLookup_insert _ _ _⟩
  · rw [if_neg hl]
    obtain ⟨st0, hst0⟩ : ∃ st0, cacheLookup cache w.id = Option.some st0 := by
      cases h : cacheLookup cache w.id with
      | none => rw [h] at hl; simp at hl
      | some st0 => exact ⟨st0, rfl⟩
    rw [hst0]
    dsimp only
    by_cases hdims : st0.last_window_width ≠ w.width ∨ st0.last_window_height ≠ w.height
    · rw [if_pos hdims, cacheLookup_insert]
      exact ⟨_, rfl, cacheLookup_insert _ _ _⟩
    · rw [if_neg hdims, hst0]
      push_neg at hdims
      refine ⟨_, rfl, ?_⟩
      rw [cacheLookup_insert]
      rw [hdims.1, hdims.2]

theorem toU32_le (q : ℚ) (n : Nat) (h : q ≤ (n : ℚ)) : toU32 q ≤ n := by
  unfold toU32
  have h1 : ⌊q⌋ ≤ (n : ℤ) := by
    calc ⌊q⌋ ≤ ⌊(n : ℚ)⌋ := Int.floor_mono h
      _ = n := Int.floor_natCast n
  exact le_trans (min_le_left _ _) (Int.toNat_le.mpr h1)

theorem wsub_of_le (a b : Nat) (hb : b ≤ a) (ha : a < U32) : wsub a b = a - b := by
  unfold wsub U32 at *
  omega

/-- If the very first destination column of a row is already past the
window edge, the inner loop of `copy_buffer_scaled` breaks immediately
and leaves the frame unchanged. -/
theorem scaledRowGo_break (buffer : List Nat) (p : CopyBufferParams) (srcY dstY rem : Nat)
    (s : List Nat) (hbrk : p.window_width ≤ wadd p.offset_x 0) :
    scaledRowGo buffer p srcY dstY 0 rem s = s := by
  cases rem with
  | zero => simp [scaledRowGo]
  | succ n =>
    rw [scaledRowGo]
    rw [if_pos hbrk]

/-- With an offset whose wrapped value is at or beyond the window width,
`copy_buffer_scaled`'s loops never write a pixel. -/
theorem scaledGo_rowbreak (buffer : List Nat) (p : CopyBufferParams)
    (hbrk : p.window_width ≤ wadd p.offset_x 0) :
    ∀ rem y s, scaledGo buffer p y rem s = s := by
  intro rem
  induction rem with
  | zero => intro y s; simp [scaledGo]
  | succ n ih =>
    intro y s
    rw [scaledGo]
    split
    case isTrue => rfl
    case isFalse =>
      rw [scaledRowGo_break buffer p _ _ _ s hbrk]
      exact ih _ s

/-- C2 (amended): the expected byte count `render` validates against is
`buffer_width * buffer_height * 4` computed in wrapping `u32` arithmetic
(so the claim as literally stated holds whenever that product does not
overflow, e.g. for 800 × 600); any buffer whose length differs from the
wrapped product makes `render` return a `BufferSizeMismatch` error that
reports the expected and actual byte counts and leaves the cache
untouched. -/
theorem render_buffer_size_mismatch (self : PixelRenderer) (poisoned : Bool)
    (w : WindowModel) (buffer : List Nat) (cache : Cache)
    (hlen : buffer.length ≠ wmul (wmul self.buffer_width self.buffer_height) 4) :
    self.render poisoned (Option.some w) buffer cache =
      (cache, Except.error (RenderError.bufferSizeMismatch buffer.length
        (wmul (wmul self.buffer_width self.buffer_height) 4)
        self.buffer_width self.buffer_height)) := by
  unfold PixelRenderer.render
  dsimp only
  rw [if_pos hlen]

/-- C2 witness, the spec's own example: an 800 × 600 renderer given a
buffer of 1919999 = 800 * 600 * 4 - 1 bytes reports expected 1920000 and
actual 1919999, and the cache is unchanged. -/
theorem render_buffer_size_mismatch_witness :
    (PixelRenderer.new 800 600).render false (Option.some ⟨1, 100, 100⟩)
      (List.replicate 1919999 0) emptyCache =
      (emptyCache, Except.error (RenderError.bufferSizeMismatch 1919999 1920000 800 600)) := by
  have hlen : (List.replicate 1919999 (0 : Nat)).length ≠
      wmul (wmul (PixelRenderer.new 800 600).buffer_width
        (PixelRenderer.new 800 600).buffer_height) 4 := by
    rw [List.length_replicate]
    decide
  have h := render_buffer_size_mismatch (PixelRenderer.new 800 600) false ⟨1, 100, 100⟩
    (List.replicate 1919999 0) emptyCache hlen
  rw [List.length_replicate] at h
  exact h

/-- C2 counterexample: with `buffer_width = buffer_height = 32768` the
product `32768 * 32768 * 4` wraps to `0` in `u32`, so an empty buffer —
whose length differs from the mathematical product — is accepted and the
render succeeds instead of failing with a size mismatch. -/
theorem render_buffer_size_mismatch_cex :
    isOkE ((PixelRenderer.new 32768 32768).render false (Option.some ⟨1, 5, 5⟩)
      [] emptyCache).2 = true ∧
    ([] : List Nat).length ≠ 32768 * 32768 * 4 := by
  constructor
  · obtain ⟨cache', heq, -⟩ := render_success (PixelRenderer.new 32768 32768) ⟨1, 5, 5⟩
      [] emptyCache (by simp [PixelRenderer.new, wmul, U32])
    rw [heq]
    rfl
  · norm_num

/-- C3 (amended): for Stretch and Fit and positive dimensions the layout
fits in the window: `offset + scaled ≤ window` in both axes.  (`Integer`
and `None` can exceed the window whenever the buffer does not fit —
`Integer` forces a scale of at least 1 and `None` uses the buffer size
verbatim — see the counterexample.) -/
theorem layout_bounded_stretch_fit (bw bh ww wh : Nat) (m : ScaleMode)
    (hbw : 0 < bw) (hbh : 0 < bh) (hww0 : 0 < ww) (hwh0 : 0 < wh)
    (hww : ww < U32) (hwh : wh < U32)
    (hm : m = ScaleMode.stretch ∨ m = ScaleMode.fit) :
    (calculate_scaled_dimensions bw bh ww wh m).1 +
      (calculate_scaled_dimensions bw bh ww wh m).2.2.1 ≤ ww ∧
    (calculate_scaled_dimensions bw bh ww wh m).2.1 +
      (calculate_scaled_dimensions bw bh ww wh m).2.2.2 ≤ wh := by
  rcases hm with hm | hm <;> subst hm
  · dsimp [calculate_scaled_dimensions]
    omega
  · dsimp [calculate_scaled_dimensions]
    have hbwq : (0 : ℚ) < (bw : ℚ) := by exact_mod_cast hbw
    have hbhq : (0 : ℚ) < (bh : ℚ) := by exact_mod_cast hbh
    have hswle : toU32 ((bw : ℚ) * min ((ww : ℚ) / (bw : ℚ)) ((wh : ℚ) / (bh : ℚ))) ≤ ww := by
      apply toU32_le
      calc (bw : ℚ) * min ((ww : ℚ) / (bw : ℚ)) ((wh : ℚ) / (bh : ℚ))
          ≤ (bw : ℚ) * ((ww : ℚ) / (bw : ℚ)) :=
            mul_le_mul_of_nonneg_left (min_le_left _ _) (le_of_lt hbwq)
        _ = (ww : ℚ) := mul_div_cancel₀ _ (ne_of_gt hbwq)
    have hshle : toU32 ((bh : ℚ) * min ((ww : ℚ) / (bw : ℚ)) ((wh : ℚ) / (bh : ℚ))) ≤ wh := by
      apply toU32_le
      calc (bh : ℚ) * min ((ww : ℚ) / (bw : ℚ)) ((wh : ℚ) / (bh : ℚ))
          ≤ (bh : ℚ) * ((wh : ℚ) / (bh : ℚ)) :=
            mul_le_mul_of_nonneg_left (min_le_right _ _) (le_of_lt hbhq)
        _ = (wh : ℚ) := mul_div_cancel₀ _ (ne_of_gt hbhq)
    rw [wsub_of_le _ _ hswle hww, wsub_of_le _ _ hshle hwh]
    omega

/-- C3 witness at buffer 1 × 1, window 2 × 2, Fit. -/
theorem layout_bounded_stretch_fit_witness :
    (calculate_scaled_dimensions 1 1 2 2 ScaleMode.fit).1 +
      (calculate_scaled_dimensions 1 1 2 2 ScaleMode.fit).2.2.1 ≤ 2 ∧
    (calculate_scaled_dimensions 1 1 2 2 ScaleMode.fit).2.1 +
      (calculate_scaled_dimensions 1 1 2 2 ScaleMode.fit).2.2.2 ≤ 2 :=
  layout_bounded_stretch_fit 1 1 2 2 ScaleMode.fit (by decide) (by decide) (by decide)
    (by decide) (by decide) (by decide) (Or.inr rfl)

/-- C3 counterexample: `None` mode with a 1000 × 1000 buffer in a
400 × 400 window keeps the buffer size as the scaled size, so
`offset_x + scaled_w = 1000 > 400 = window_w`, refuting boundedness for
a mode other than Fill. -/
theorem layout_bounded_cex :
    calculate_scaled_dimensions 1000 1000 400 400 ScaleMode.none = (0, 0, 1000, 1000) ∧
    ¬((calculate_scaled_dimensions 1000 1000 400 400 ScaleMode.none).1 +
      (calculate_scaled_dimensions 1000 1000 400 400 ScaleMode.none).2.2.1 ≤ 400) := by
  constructor <;> decide

/-- C4: at buffer 800 × 600, window 1000 × 1000, Fill computes
`scale = 5/3`, `scaled = 1333 × 1000`, but `offset_x` is the wrapping
`u32` evaluation of `(1000 - 1333) / 2 = 2147483481`, not a truncation
toward zero of `-166`; consequently every destination column is clipped
and `copy_buffer_scaled` draws nothing at this layout. -/
theorem fill_layout_offset_wraps :
    calculate_scaled_dimensions 800 600 1000 1000 ScaleMode.fill
      = (2147483481, 0, 1333, 1000) ∧
    ∀ s b : List Nat,
      copy_buffer_scaled s b ⟨800, 600, 1000, 1000, 2147483481, 0, 1333, 1000⟩ = s := by
  constructor
  · rw [calculate_scaled_dimensions, max_def]
    norm_num [toU32, U32, wsub]
    decide
  · intro s b
    unfold copy_buffer_scaled
    exact scaledGo_rowbreak b _ (by decide) _ 0 s

/-- C5: each copy routine writes only destination pixels whose index is
inside the window rectangle `[0, window_w * window_h)` — equivalently at
coordinates `(x, y)` with `x < window_w`, `y < window_h` — leaves every
other frame entry untouched, preserves the frame length, and every pixel
it changes is built from four source bytes read strictly inside the
source buffer.  This covers Fill layouts whose scaled rectangle exceeds
the window. -/
theorem copy_routines_write_clipping (surface buffer : List Nat) (bw bh ww wh : Nat)
    (p : CopyBufferParams) :
    ClippedWrites surface buffer ww wh (copy_buffer_stretch surface buffer bw bh ww wh) ∧
    ClippedWrites surface buffer ww wh (copy_buffer_centered surface buffer bw bh ww wh) ∧
    ClippedWrites surface buffer p.window_width p.window_height
      (copy_buffer_scaled surface buffer p) :=
  ⟨stretch_clipped surface buffer bw bh ww wh,
   centered_clipped surface buffer bw bh ww wh,
   scaled_clipped surface buffer p⟩

/-- C5 witness: a pixel beyond the 1 × 2 window rectangle is untouched
by the stretch copy at a concrete input. -/
theorem copy_routines_write_clipping_witness :
    (copy_buffer_stretch [1, 2, 3] [9, 9, 9, 9] 1 1 1 2).getD 9 0
      = ([1, 2, 3] : List Nat).getD 9 0 :=
  (copy_routines_write_clipping [1, 2, 3] [9, 9, 9, 9] 1 1 1 2
    ⟨1, 1, 1, 2, 0, 0, 1, 2⟩).1.2.1 9 (by decide)

/-- C6: Fit layout for buffer 800 × 600 in a 1000 × 600 window: scale
`min(1.25, 1.0) = 1.0`, scaled size 800 × 600, offsets `(100, 0)`. -/
theorem fit_layout_example :
    calculate_scaled_dimensions 800 600 1000 600 ScaleMode.fit = (100, 0, 800, 600) := by
  rw [calculate_scaled_dimensions, min_def]
  norm_num [toU32, U32, wsub]
  decide

/-- C1 (amended): for a window with positive current pixel dimensions, a
render with a healthy lock and a valid buffer succeeds, and afterwards
the cache entry for the window's identity stores exactly the dimensions
observed during the call (with the surface resized to them), while the
presented frame holds `window_w * window_h` packed pixels.  (For a
window reporting a zero dimension the surface is clamped to the
`NonZeroU32` minimum and the frame size differs — see the
counterexample.) -/
theorem render_resize_reconciliation (self : PixelRenderer) (w : WindowModel)
    (buffer : List Nat) (cache : Cache)
    (hlen : buffer.length = wmul (wmul self.buffer_width self.buffer_height) 4)
    (hw : 0 < w.width) (hh : 0 < w.height) :
    isOkE (self.render false (Option.some w) buffer cache).2 = true ∧
    cacheLookup (self.render false (Option.some w) buffer cache).1 w.id =
      Option.some ⟨w.width, w.height, w.width, w.height⟩ ∧
    frameLen (self.render false (Option.some w) buffer cache).2 = w.width * w.height := by
  obtain ⟨cache', heq, hlook⟩ := render_success self w buffer cache hlen
  have hcw : clampNZ w.width = w.width := by
    unfold clampNZ
    rw [if_neg (by omega)]
  have hch : clampNZ w.height = w.height := by
    unfold clampNZ
    rw [if_neg (by omega)]
  rw [heq]
  refine ⟨rfl, ?_, ?_⟩
  · rw [hcw, hch] at hlook
    exact hlook
  · show (self.render_to_buffer _ buffer w.width w.height).length = w.width * w.height
    rw [render_to_buffer_length, List.length_replicate, hcw, hch]

/-- C1 witness at a 1 × 1 renderer, window 3 with current size 2 × 2. -/
theorem render_resize_reconciliation_witness :
    isOkE ((PixelRenderer.new 1 1).render false (Option.some ⟨3, 2, 2⟩)
      (List.replicate 4 7) emptyCache).2 = true ∧
    cacheLookup ((PixelRenderer.new 1 1).render false (Option.some ⟨3, 2, 2⟩)
      (List.replicate 4 7) emptyCache).1 3 = Option.some ⟨2, 2, 2, 2⟩ ∧
    frameLen ((PixelRenderer.new 1 1).render false (Option.some ⟨3, 2, 2⟩)
      (List.replicate 4 7) emptyCache).2 = 2 * 2 :=
  render_resize_reconciliation (PixelRenderer.new 1 1) ⟨3, 2, 2⟩ (List.replicate 4 7)
    emptyCache (by decide) (by decide) (by decide)

/-- C1 counterexample: a window reporting current size 0 × 600 renders
successfully, but the presented frame holds 1 * 600 = 600 packed pixels
(the surface width is clamped to the `NonZeroU32` minimum of 1), not
`new_window_w * new_window_h = 0 * 600 = 0`. -/
theorem render_resize_reconciliation_cex :
    isOkE ((PixelRenderer.new 1 1).render false (Option.some ⟨7, 0, 600⟩)
      (List.replicate 4 0) emptyCache).2 = true ∧
    frameLen ((PixelRenderer.new 1 1).render false (Option.some ⟨7, 0, 600⟩)
      (List.replicate 4 0) emptyCache).2 = 600 ∧
    (0 : Nat) * 600 ≠ 600 := by
  obtain ⟨cache', heq, -⟩ := render_success (PixelRenderer.new 1 1) ⟨7, 0, 600⟩
    (List.replicate 4 0) emptyCache (by decide)
  rw [heq]
  refine ⟨rfl, ?_, by norm_num⟩
  show ((PixelRenderer.new 1 1).render_to_buffer _ _ _ _).length = 600
  rw [render_to_buffer_length, List.length_replicate]
  decide

/-- C7: the background fill writes the converted background pixel to
every frame entry, and that packed value preserves the configured red,
green and blue channels while the alpha byte is forced to 255 no matter
which alpha was requested. -/
theorem background_fill_opaque (c : Color) (surface : List Nat) (i : Nat)
    (hr : c.r < 256) (hg : c.g < 256) (hb : c.b < 256) (hi : i < surface.length) :
    (fillBackground c surface).getD i 0 = bgArgb c ∧
    bgArgb c / 65536 % 256 = c.r ∧
    bgArgb c / 256 % 256 = c.g ∧
    bgArgb c % 256 = c.b ∧
    bgArgb c / 16777216 = 255 := by
  refine ⟨?_, ?_, ?_, ?_, ?_⟩
  · rw [fillBackground, List.getD_eq_getElem?_getD, List.getElem?_map,
      List.getElem?_eq_getElem hi]
    rfl
  all_goals unfold bgArgb from_le_bytes
  all_goals omega

/-- C7 witness with background `[10, 20, 30, 7]`: a non-opaque requested
alpha still yields an opaque pixel with the RGB channels preserved. -/
theorem background_fill_opaque_witness :
    (fillBackground ⟨10, 20, 30, 7⟩ [1, 2]).getD 0 0 = bgArgb ⟨10, 20, 30, 7⟩ ∧
    bgArgb ⟨10, 20, 30, 7⟩ / 65536 % 256 = 10 ∧
    bgArgb ⟨10, 20, 30, 7⟩ / 256 % 256 = 20 ∧
    bgArgb ⟨10, 20, 30, 7⟩ % 256 = 30 ∧
    bgArgb ⟨10, 20, 30, 7⟩ / 16777216 = 255 :=
  background_fill_opaque ⟨10, 20, 30, 7⟩ [1, 2] 0 (by decide) (by decide) (by decide)
    (by decide)

/-- C8 (amended): when the cache mutex is poisoned, `render`'s cache
access fails with the lock-failure error and leaves the cache unchanged;
`clear_render_cache` and `clear_all_render_caches`, whose return type
carries no error, silently return with the cache unchanged rather than
failing. -/
theorem poisoned_lock_behavior (self : PixelRenderer) (w : WindowModel)
    (buffer : List Nat) (cache : Cache)
    (hlen : buffer.length = wmul (wmul self.buffer_width self.buffer_height) 4) :
    self.render true (Option.some w) buffer cache =
      (cache, Except.error RenderError.lockFailure) ∧
    clear_render_cache true cache w.id = cache ∧
    clear_all_render_caches true cache = cache := by
  refine ⟨?_, rfl, rfl⟩
  unfold PixelRenderer.render
  dsimp only
  rw [if_neg (by simp [hlen])]
  rw [if_pos rfl]

/-- C8 witness at a 1 × 1 renderer and the empty cache. -/
theorem poisoned_lock_behavior_witness :
    (PixelRenderer.new 1 1).render true (Option.some ⟨2, 3, 3⟩)
      (List.replicate 4 0) emptyCache =
      (emptyCache, Except.error RenderError.lockFailure) ∧
    clear_render_cache true emptyCache 2 = emptyCache ∧
    clear_all_render_caches true emptyCache = emptyCache :=
  poisoned_lock_behavior (PixelRenderer.new 1 1) ⟨2, 3, 3⟩ (List.replicate 4 0)
    emptyCache (by decide)

/-- C8 counterexample: with the lock poisoned, `clear_render_cache` and
`clear_all_render_caches` silently proceed: they complete without any
error (their return type has none) and leave the cached entry in place
instead of failing with a lock-failure error. -/
theorem clear_cache_poisoned_cex :
    clear_render_cache true [(5, ⟨800, 600, 800, 600⟩)] 5 =
      [(5, (⟨800, 600, 800, 600⟩ : RenderState))] ∧
    cacheLookup (clear_render_cache true [(5, ⟨800, 600, 800, 600⟩)] 5) 5 =
      Option.some (⟨800, 600, 800, 600⟩ : RenderState) ∧
    clear_all_render_caches true [(5, (⟨800, 600, 800, 600⟩ : RenderState))] =
      [(5, (⟨800, 600, 800, 600⟩ : RenderState))] :=
  ⟨rfl, rfl, rfl⟩

/-- C9 (amended): the constructors store the requested dimensions
verbatim and perform no positivity validation, so the stored dimensions
are positive exactly when the caller's arguments are. -/
theorem constructors_store_dimensions (w h : Nat) (o : RenderOptions) :
    (PixelRenderer.new w h).buffer_width = w ∧
    (PixelRenderer.new w h).buffer_height = h ∧
    (PixelRenderer.with_options o).buffer_width = o.buffer_width ∧
    (PixelRenderer.with_options o).buffer_height = o.buffer_height :=
  ⟨rfl, rfl, rfl, rfl⟩

/-- C9 counterexample: `new(0, 5)` constructs a renderer whose
`buffer_width` is 0, violating the claimed positivity invariant. -/
theorem constructor_zero_width_cex :
    (PixelRenderer.new 0 5).buffer_width = 0 ∧
    ¬(0 < (PixelRenderer.new 0 5).buffer_width) :=
  ⟨rfl, by decide⟩

/-- C10: `with_options` defaulting: a missing background color, or one
with fewer than four entries, falls back to `[0, 0, 0, 255]`; one with
four or more entries contributes exactly its first four components and
the rest are ignored; a missing scale mode defaults to `Fit`. -/
theorem with_options_defaults (o : RenderOptions) :
    (o.background_color = Option.none →
      (PixelRenderer.with_options o).bg_color = ⟨0, 0, 0, 255⟩) ∧
    (∀ c, o.background_color = Option.some c → c.length < 4 →
      (PixelRenderer.with_options o).bg_color = ⟨0, 0, 0, 255⟩) ∧
    (∀ c, o.background_color = Option.some c → 4 ≤ c.length →
      (PixelRenderer.with_options o).bg_color =
        ⟨c.getD 0 0, c.getD 1 0, c.getD 2 0, c.getD 3 0⟩) ∧
    (o.scale_mode = Option.none →
      (PixelRenderer.with_options o).scale_mode = ScaleMode.fit) := by
  refine ⟨?_, ?_, ?_, ?_⟩
  · intro hbg
    unfold PixelRenderer.with_options
    rw [hbg]
  · intro c hbg hlt
    unfold PixelRenderer.with_options
    rw [hbg]
    dsimp only
    rw [if_neg (by omega)]
  · intro c hbg hge
    unfold PixelRenderer.with_options
    rw [hbg]
    dsimp only
    rw [if_pos hge]
  · intro hsm
    unfold PixelRenderer.with_options
    rw [hsm]
    rfl

/-- C10 witness: a five-entry background color keeps its first four
components and the fifth is ignored; a missing scale mode gives Fit. -/
theorem with_options_defaults_witness :
    (PixelRenderer.with_options ⟨800, 600, Option.none, Option.some [1, 2, 3, 4, 9]⟩).bg_color
      = ⟨1, 2, 3, 4⟩ ∧
    (PixelRenderer.with_options ⟨800, 600, Option.none, Option.some [1, 2, 3, 4, 9]⟩).scale_mode
      = ScaleMode.fit :=
  ⟨(with_options_defaults ⟨800, 600, Option.none, Option.some [1, 2, 3, 4, 9]⟩).2.2.1
      [1, 2, 3, 4, 9] rfl (by decide),
   (with_options_defaults ⟨800, 600, Option.none, Option.some [1, 2, 3, 4, 9]⟩).2.2.2 rfl⟩

end WebviewRender
